import Mathlib

/-!
# Verification of the DF Imóveis rental scraper

Shallow embedding of `webscraper_dfimoveis_final.py`: per-listing field
extraction (BeautifulSoup lookups that return `None` on absence), the
paginated crawl loop with its empty-page and page-ceiling stopping
conditions, the `try/finally` browser teardown, and the final CSV
persistence step.  Python's structural-absence failure modes are made
explicit: calling `.text` / `.find` on a `None` lookup result raises
`AttributeError`, while subscripting `None['href']` raises `TypeError`;
only `AttributeError` is caught by the per-listing handler.
-/

namespace DfImoveis

/-- `URL_BASE` constant of the script (line 33). -/
def URL_BASE : String := "https://www.dfimoveis.com.br/aluguel/df/todos/imoveis"

/-- `HOME_PAGE` constant of the script (line 34). -/
def HOME_PAGE : String := "https://www.dfimoveis.com.br/"

/-- `NOME_ARQUIVO_BRUTO` constant of the script (line 37): CSV output path. -/
def NOME_ARQUIVO_BRUTO : String := "imoveis_aluguel_df_dataset_completo.csv"

/-- `MAX_PAGINAS` constant of the script (line 41): page-count ceiling. -/
def MAX_PAGINAS : Nat := 350

/-- The Python exception kinds relevant to the script: `AttributeError`
(from `None.text` / `None.find`), `TypeError` (from `None['href']`), and
a `WebDriverException`-style navigation failure from `driver.get`. -/
inductive PyErr where
  | attributeError
  | typeError
  | webDriverError
deriving DecidableEq

/-- One `<li>` of the features `<ul>`: its `title` attribute and its text. -/
structure LiTag where
  title : String
  text : String
deriving DecidableEq

/-- One listing container (`div.property-list__item`), abstracting the
BeautifulSoup lookups the script performs on it (lines 112-117):
each field is the result of the corresponding `find`, `none` when the
element is absent.
* `preco`: text of `p.property-list__price`;
* `endereco`: text of `p.property-list__address`;
* `link`: `href` of the first `<a href=...>` (`find('a', href=True)`);
* `features`: the `<li>` entries of `ul.property-list__features`. -/
structure AnuncioDiv where
  preco : Option String
  endereco : Option String
  link : Option String
  features : Option (List LiTag)
deriving DecidableEq

/-- One scraped record, the dictionary built at lines 131-134
(field order = dict insertion order). -/
structure Imovel where
  preco_anuncio : String
  endereco : String
  area_util_m2 : String
  quartos : String
  suites : String
  vagas : String
  url : String
deriving DecidableEq

/-- ASCII whitespace, for modelling Python's `str.strip()`. -/
def isPySpace (c : Char) : Bool :=
  c == ' ' || c == '\t' || c == '\n' || c == '\r' || c == '\x0b' || c == '\x0c'

/-- Python `s.strip()`: drop whitespace from both ends. -/
def pyStripWs (s : String) : String :=
  String.mk (((s.data.dropWhile isPySpace).reverse.dropWhile isPySpace).reverse)

/-- Python `s.strip(c)` for a single character `c` (used as
`HOME_PAGE.strip('/')` at line 115): drop `c` from both ends. -/
def pyStripChar (s : String) (c : Char) : String :=
  String.mk (((s.data.dropWhile (fun x => x == c)).reverse.dropWhile (fun x => x == c)).reverse)

/-- Python `s.startswith(pre)`. -/
def pyStartsWith (s pre : String) : Bool :=
  pre.data.isPrefixOf s.data

/-- Line 115: `f"{HOME_PAGE.strip('/')}{link}" if link.startswith('/') else link`. -/
def url_completa (home link : String) : String :=
  if pyStartsWith link "/" then pyStripChar home '/' ++ link else link

/-- Lines 120-123, the `get_feature` helper:
`features_list.find('li', attrs={'title': feature_name})`, then
`tag.text.strip() if tag else 'N/A'`. -/
def get_feature (features_list : List LiTag) (feature_name : String) : String :=
  match features_list.find? (fun li => li.title == feature_name) with
  | some tag => pyStripWs tag.text
  | none => "N/A"

/-- Lines 112-134, the body of the per-listing `try`: extraction of one
container.  Lookup results that are `None` fail exactly as in Python, in
source order: a missing price or address element raises `AttributeError`
(`None.text`), a missing `<a href>` raises `TypeError` (`None['href']`),
and a missing features `<ul>` raises `AttributeError` (`None.find`). -/
def extractAnuncioDiv (a : AnuncioDiv) : Except PyErr Imovel :=
  match a.preco with
  | none => .error .attributeError
  | some precoTxt =>
    match a.endereco with
    | none => .error .attributeError
    | some enderecoTxt =>
      match a.link with
      | none => .error .typeError
      | some link =>
        match a.features with
        | none => .error .attributeError
        | some features_list =>
          .ok { preco_anuncio := pyStripWs precoTxt,
                endereco := pyStripWs enderecoTxt,
                area_util_m2 := get_feature features_list "Área útil",
                quartos := get_feature features_list "Quartos",
                suites := get_feature features_list "Suítes",
                vagas := get_feature features_list "Vagas",
                url := url_completa HOME_PAGE link }

/-- The on-disk CSV produced by `df.to_csv(NOME_ARQUIVO_BRUTO, index=False,
encoding='utf-8-sig')` (line 161): target path, header row plus data rows,
the `index` flag, the encoding, and the overwrite semantics of the default
write mode. -/
structure CsvFile where
  path : String
  rows : List (List String)
  withIndex : Bool
  encoding : String
  overwrite : Bool
deriving DecidableEq

/-- Observable events of one run, in program order: a page fetch
(`driver.get` of a listing page, line 86), the per-skipped-listing warning
print (line 140), `driver.quit()` (line 149), the CSV write (line 161) and
the nothing-collected notice (line 167). -/
inductive Event where
  | fetch (pagina : Nat)
  | warnSkip
  | quit
  | persistCsv (file : CsvFile)
  | noticeEmpty
deriving DecidableEq

/-- CSV column order: the `pd.DataFrame` column order is the insertion
order of the dict built at lines 131-134. -/
def csvHeader : List String :=
  ["preco_anuncio", "endereco", "area_util_m2", "quartos", "suites", "vagas", "url"]

/-- One CSV data row for a record, in header order. -/
def imovelRow (i : Imovel) : List String :=
  [i.preco_anuncio, i.endereco, i.area_util_m2, i.quartos, i.suites, i.vagas, i.url]

/-- The CSV file written for a non-empty record list (line 161). -/
def toCsvFile (recs : List Imovel) : CsvFile :=
  { path := NOME_ARQUIVO_BRUTO,
    rows := csvHeader :: recs.map imovelRow,
    withIndex := false,
    encoding := "utf-8-sig",
    overwrite := true }

/-- Lines 109-141, the `for anuncio in lista_anuncios` loop: each container
is extracted inside `try ... except AttributeError: continue`.  An
`AttributeError` is caught — the container is skipped with a warning and
the loop continues; any other exception (the `TypeError` of line 114)
propagates immediately.  Returns the accumulated records (or the
propagated error) together with the events emitted. -/
def processAnuncios : List AnuncioDiv → Except PyErr (List Imovel) × List Event
  | [] => (.ok [], [])
  | a :: rest =>
    match extractAnuncioDiv a with
    | .ok imovel =>
      match processAnuncios rest with
      | (.ok recs, evs) => (.ok (imovel :: recs), evs)
      | (.error e, evs) => (.error e, evs)
    | .error .attributeError =>
      match processAnuncios rest with
      | (res, evs) => (res, .warnSkip :: evs)
    | .error e => (.error e, [])

/-- Result of the crawl loop: the final accumulated records (or the
propagating error) and the emitted events. -/
structure LoopResult where
  outcome : Except PyErr (List Imovel)
  trace : List Event

/-- Lines 81-144, the `while pagina_atual <= MAX_PAGINAS` loop.  `site`
maps a page index to the outcome of fetching and parsing that listing
page: a navigation error, or the `find_all('div', class_='property-list__item')`
container list.  The loop fetches the current page, stops when the
container list is empty (line 102), otherwise extracts the containers
(errors other than the caught `AttributeError` propagate) and recurses on
the next page index.  `fuel` is only an upper bound on the remaining
iterations so that the recursion is structural; callers pass
`maxPaginas + 1`, which the guard `pagina_atual ≤ maxPaginas` can never
exhaust, so termination is decided by the source's guard. -/
def crawlLoop (site : Nat → Except PyErr (List AnuncioDiv)) (maxPaginas : Nat) :
    Nat → Nat → List Imovel → LoopResult
  | 0, _, acc => { outcome := .ok acc, trace := [] }
  | fuel + 1, pagina_atual, acc =>
    if pagina_atual ≤ maxPaginas then
      match site pagina_atual with
      | .error e => { outcome := .error e, trace := [.fetch pagina_atual] }
      | .ok lista_anuncios =>
        if lista_anuncios.isEmpty then
          { outcome := .ok acc, trace := [.fetch pagina_atual] }
        else
          match processAnuncios lista_anuncios with
          | (.error e, evs) =>
            { outcome := .error e, trace := .fetch pagina_atual :: evs }
          | (.ok recs, evs) =>
            let r := crawlLoop site maxPaginas fuel (pagina_atual + 1) (acc ++ recs)
            { outcome := r.outcome, trace := (.fetch pagina_atual :: evs) ++ r.trace }
    else { outcome := .ok acc, trace := [] }

/-- Result of one whole run of the script. -/
structure RunResult where
  outcome : Except PyErr (List Imovel)
  trace : List Event

/-- Lines 73-167: the `try` body (warm-up navigation, then the crawl loop
starting at `pagina_atual = 1` with an empty accumulator), the `finally:
driver.quit()` that runs on every exit path, and — only when the `try`
body completed without an exception — the final persistence step:
`df.to_csv(...)` when records were collected, the nothing-collected
notice otherwise.  An exception re-raises after the `finally`, so the
persistence step is never reached on an error. -/
def runScraper (warmup : Except PyErr Unit)
    (site : Nat → Except PyErr (List AnuncioDiv)) (maxPaginas : Nat) : RunResult :=
  match warmup with
  | .error e => { outcome := .error e, trace := [Event.quit] }
  | .ok _ =>
    let r := crawlLoop site maxPaginas (maxPaginas + 1) 1 []
    match r.outcome with
    | .error e => { outcome := .error e, trace := r.trace ++ [Event.quit] }
    | .ok recs =>
      if recs.isEmpty then
        { outcome := .ok recs, trace := r.trace ++ [Event.quit, Event.noticeEmpty] }
      else
        { outcome := .ok recs,
          trace := r.trace ++ [Event.quit, Event.persistCsv (toCsvFile recs)] }

/-- The page indices of the fetch events of a trace, in order. -/
def fetchPages (t : List Event) : List Nat :=
  t.filterMap (fun e => match e with | .fetch p => some p | _ => none)

/-- Number of fetch operations recorded in a trace. -/
def numFetches (t : List Event) : Nat :=
  (fetchPages t).length

/-- Recognizer for the `driver.quit()` event. -/
def isQuit : Event → Bool
  | .quit => true
  | _ => false

/-- Number of `driver.quit()` invocations recorded in a trace. -/
def countQuit (t : List Event) : Nat :=
  t.countP isQuit

/-- The CSV files written by the persist events of a trace, in order. -/
def persistedFiles (t : List Event) : List CsvFile :=
  t.filterMap (fun e => match e with | .persistCsv f => some f | _ => none)

/-- Recognizer for the nothing-collected notice. -/
def isNoticeEmpty : Event → Bool
  | .noticeEmpty => true
  | _ => false

/-- Number of nothing-collected notices recorded in a trace. -/
def countNoticeEmpty (t : List Event) : Nat :=
  t.countP isNoticeEmpty

/-- `[start, start+1, ..., start+n-1]`: the consecutive page indices. -/
def pageSeq : Nat → Nat → List Nat
  | _, 0 => []
  | start, n + 1 => start :: pageSeq (start + 1) n

/-- The crawl loop as invoked by the script: first page 1, empty
accumulator, fuel exceeding the ceiling so the guard decides termination. -/
def loopOf (site : Nat → Except PyErr (List AnuncioDiv)) (maxPaginas : Nat) : LoopResult :=
  crawlLoop site maxPaginas (maxPaginas + 1) 1 []

/-! ## Concrete fixtures -/

/-- A complete features list. -/
def goodLis : List LiTag :=
  [⟨"Área útil", "80 m²"⟩, ⟨"Quartos", "3"⟩, ⟨"Suítes", "1"⟩, ⟨"Vagas", "2"⟩]

/-- A well-formed listing container. -/
def goodDiv : AnuncioDiv :=
  { preco := some " R$ 2.500 ", endereco := some "Asa Norte, Brasília",
    link := some "/imovel/1", features := some goodLis }

/-- The record `goodDiv` extracts to. -/
def goodImovel : Imovel :=
  { preco_anuncio := "R$ 2.500", endereco := "Asa Norte, Brasília",
    area_util_m2 := "80 m²", quartos := "3", suites := "1", vagas := "2",
    url := "https://www.dfimoveis.com.br/imovel/1" }

/-- A container with price and address elements but no `<a href>` anchor. -/
def noLinkDiv : AnuncioDiv :=
  { preco := some "R$ 1.000", endereco := some "Asa Sul",
    link := none, features := some goodLis }

/-- A container whose features `<ul>` is entirely absent. -/
def noFeaturesDiv : AnuncioDiv :=
  { preco := some "R$ 3.000", endereco := some "Lago Sul",
    link := some "/imovel/2", features := none }

/-- A container whose features list is present but empty. -/
def naDiv : AnuncioDiv :=
  { preco := some "R$ 900", endereco := some "Taguatinga",
    link := some "https://other.example/x", features := some [] }

/-- A site whose page 1 has 20 well-formed containers and page 2 is empty. -/
def siteA : Nat → Except PyErr (List AnuncioDiv) :=
  fun p => if p = 1 then .ok (List.replicate 20 goodDiv) else .ok []

/-- A site on which every page has one well-formed container. -/
def siteFull : Nat → Except PyErr (List AnuncioDiv) :=
  fun _ => .ok [goodDiv]

/-- A site whose page 1 succeeds and whose page 2 fails with a navigation
error. -/
def siteErr : Nat → Except PyErr (List AnuncioDiv) :=
  fun p => if p = 1 then .ok [goodDiv] else .error .webDriverError

/-- A site whose page 1 holds a link-less container followed by a
well-formed one. -/
def siteNoLink : Nat → Except PyErr (List AnuncioDiv) :=
  fun _ => .ok [noLinkDiv, goodDiv]

/-! ## Helper lemmas -/

theorem pageSeq_length (start n : Nat) : (pageSeq start n).length = n := by
  induction n generalizing start with
  | zero => rfl
  | succ n ih => simp [pageSeq, ih]

theorem pageSeq_mem {start n p : Nat} (h : p ∈ pageSeq start n) :
    start ≤ p ∧ p < start + n := by
  induction n generalizing start with
  | zero => simp [pageSeq] at h
  | succ n ih =>
    simp only [pageSeq, List.mem_cons] at h
    rcases h with h | h
    · omega
    · have := ih h
      omega

theorem fetchPages_append (t₁ t₂ : List Event) :
    fetchPages (t₁ ++ t₂) = fetchPages t₁ ++ fetchPages t₂ :=
  List.filterMap_append t₁ t₂ _

theorem persistedFiles_append (t₁ t₂ : List Event) :
    persistedFiles (t₁ ++ t₂) = persistedFiles t₁ ++ persistedFiles t₂ :=
  List.filterMap_append t₁ t₂ _

theorem countQuit_append (t₁ t₂ : List Event) :
    countQuit (t₁ ++ t₂) = countQuit t₁ + countQuit t₂ :=
  List.countP_append _ t₁ t₂

theorem countNoticeEmpty_append (t₁ t₂ : List Event) :
    countNoticeEmpty (t₁ ++ t₂) = countNoticeEmpty t₁ + countNoticeEmpty t₂ :=
  List.countP_append _ t₁ t₂

/-- The per-listing loop only emits skip warnings. -/
theorem processAnuncios_events_warn (as : List AnuncioDiv) :
    ∀ ev ∈ (processAnuncios as).2, ev = Event.warnSkip := by
  induction as with
  | nil => intro ev h; simp [processAnuncios] at h
  | cons a rest ih =>
    intro ev h
    simp only [processAnuncios] at h
    cases hx : extractAnuncioDiv a with
    | ok imovel =>
      rw [hx] at h
      rcases hr : processAnuncios rest with ⟨res, evs⟩
      rw [hr] at h
      cases res with
      | ok recs => exact ih ev (by rw [hr]; exact h)
      | error e => exact ih ev (by rw [hr]; exact h)
    | error e =>
      rw [hx] at h
      cases e with
      | attributeError =>
        rcases hr : processAnuncios rest with ⟨res, evs⟩
        rw [hr] at h
        rcases List.mem_cons.mp h with h | h
        · exact h
        · exact ih ev (by rw [hr]; exact h)
      | typeError => simp at h
      | webDriverError => simp at h

/-- The crawl loop only emits fetches and skip warnings. -/
theorem crawlLoop_events (site : Nat → Except PyErr (List AnuncioDiv))
    (maxPaginas : Nat) (fuel pagina acc : _) :
    ∀ ev ∈ (crawlLoop site maxPaginas fuel pagina acc).trace,
      (∃ p, ev = Event.fetch p) ∨ ev = Event.warnSkip := by
  induction fuel generalizing pagina acc with
  | zero => intro ev h; simp [crawlLoop] at h
  | succ fuel ih =>
    intro ev h
    rw [crawlLoop] at h
    by_cases hg : pagina ≤ maxPaginas
    · rw [if_pos hg] at h
      cases hs : site pagina with
      | error e =>
        rw [hs] at h
        dsimp only at h
        simp at h
        exact Or.inl ⟨pagina, h⟩
      | ok lista =>
        rw [hs] at h
        dsimp only at h
        by_cases he : lista.isEmpty
        · rw [if_pos he] at h
          simp at h
          exact Or.inl ⟨pagina, h⟩
        · rw [if_neg he] at h
          rcases hp : processAnuncios lista with ⟨res, evs⟩
          rw [hp] at h
          cases res with
          | error e =>
            dsimp only at h
            simp only [List.mem_cons] at h
            rcases h with h | h
            · exact Or.inl ⟨pagina, h⟩
            · exact Or.inr (processAnuncios_events_warn lista ev (by rw [hp]; exact h))
          | ok recs =>
            dsimp only at h
            simp only [List.cons_append, List.mem_cons, List.mem_append] at h
            rcases h with h | h | h
            · exact Or.inl ⟨pagina, h⟩
            · exact Or.inr (processAnuncios_events_warn lista ev (by rw [hp]; exact h))
            · exact ih (pagina + 1) (acc ++ recs) ev h
    · rw [if_neg hg] at h
      simp at h

theorem fetchPages_of_warn {t : List Event} (h : ∀ ev ∈ t, ev = Event.warnSkip) :
    fetchPages t = [] := by
  refine List.filterMap_eq_nil_iff.mpr (fun ev hm => ?_)
  rw [h ev hm]

theorem countQuit_loop (site : Nat → Except PyErr (List AnuncioDiv))
    (maxPaginas fuel pagina : Nat) (acc : List Imovel) :
    countQuit (crawlLoop site maxPaginas fuel pagina acc).trace = 0 := by
  refine List.countP_eq_zero.mpr (fun ev hm => ?_)
  rcases crawlLoop_events site maxPaginas fuel pagina acc ev hm with ⟨p, rfl⟩ | rfl <;> simp [isQuit]

theorem persistedFiles_loop (site : Nat → Except PyErr (List AnuncioDiv))
    (maxPaginas fuel pagina : Nat) (acc : List Imovel) :
    persistedFiles (crawlLoop site maxPaginas fuel pagina acc).trace = [] := by
  refine List.filterMap_eq_nil_iff.mpr (fun ev hm => ?_)
  rcases crawlLoop_events site maxPaginas fuel pagina acc ev hm with ⟨p, rfl⟩ | rfl <;> rfl

theorem countNoticeEmpty_loop (site : Nat → Except PyErr (List AnuncioDiv))
    (maxPaginas fuel pagina : Nat) (acc : List Imovel) :
    countNoticeEmpty (crawlLoop site maxPaginas fuel pagina acc).trace = 0 := by
  refine List.countP_eq_zero.mpr (fun ev hm => ?_)
  rcases crawlLoop_events site maxPaginas fuel pagina acc ev hm with ⟨p, rfl⟩ | rfl <;>
    simp [isNoticeEmpty]

theorem fetchPages_cons_fetch (p : Nat) (t : List Event) :
    fetchPages (Event.fetch p :: t) = p :: fetchPages t := by
  simp [fetchPages, List.filterMap_cons]

/-- Shape of the fetch sequence: consecutive page indices from `pagina`,
never reaching past the ceiling. -/
theorem crawlLoop_fetchPages (site : Nat → Except PyErr (List AnuncioDiv))
    (maxPaginas : Nat) (fuel pagina : Nat) (acc : List Imovel) :
    ∃ n, fetchPages (crawlLoop site maxPaginas fuel pagina acc).trace = pageSeq pagina n ∧
      (n = 0 ∨ pagina + n ≤ maxPaginas + 1) := by
  induction fuel generalizing pagina acc with
  | zero => exact ⟨0, by simp [crawlLoop, fetchPages, pageSeq], Or.inl rfl⟩
  | succ fuel ih =>
    rw [crawlLoop]
    by_cases hg : pagina ≤ maxPaginas
    · rw [if_pos hg]
      cases hs : site pagina with
      | error e =>
        dsimp only
        refine ⟨1, ?_, Or.inr (by omega)⟩
        show fetchPages [Event.fetch pagina] = pageSeq pagina 1
        simp [fetchPages, List.filterMap_cons, pageSeq]
      | ok lista =>
        dsimp only
        by_cases he : lista.isEmpty
        · rw [if_pos he]
          refine ⟨1, ?_, Or.inr (by omega)⟩
          show fetchPages [Event.fetch pagina] = pageSeq pagina 1
          simp [fetchPages, List.filterMap_cons, pageSeq]
        · rw [if_neg he]
          rcases hp : processAnuncios lista with ⟨res, evs⟩
          have hevs : fetchPages evs = [] :=
            fetchPages_of_warn (fun ev hm =>
              processAnuncios_events_warn lista ev (by rw [hp]; exact hm))
          cases res with
          | error e =>
            refine ⟨1, ?_, Or.inr (by omega)⟩
            show fetchPages (Event.fetch pagina :: evs) = pageSeq pagina 1
            rw [fetchPages_cons_fetch, hevs]
            rfl
          | ok recs =>
            obtain ⟨n, hn, hb⟩ := ih (pagina + 1) (acc ++ recs)
            refine ⟨n + 1, ?_, Or.inr (by omega)⟩
            show fetchPages ((Event.fetch pagina :: evs) ++ _) = pageSeq pagina (n + 1)
            rw [List.cons_append, fetchPages_cons_fetch, fetchPages_append, hevs,
              List.nil_append, hn]
            rfl
    · rw [if_neg hg]
      exact ⟨0, by simp [fetchPages, pageSeq], Or.inl rfl⟩

/-- Exhaustive description of a run: either the warm-up failed, or the
crawl loop ran and the run ends with teardown plus — only on normal
completion — the persistence step or the nothing-collected notice. -/
theorem runScraper_eq_cases (w : Except PyErr Unit)
    (site : Nat → Except PyErr (List AnuncioDiv)) (maxPaginas : Nat) :
    (∃ e, w = Except.error e ∧
       runScraper w site maxPaginas =
         { outcome := Except.error e, trace := [Event.quit] }) ∨
    (w = Except.ok () ∧
      ((∃ e, (loopOf site maxPaginas).outcome = Except.error e ∧
          runScraper w site maxPaginas =
            { outcome := Except.error e,
              trace := (loopOf site maxPaginas).trace ++ [Event.quit] }) ∨
       (∃ recs, (loopOf site maxPaginas).outcome = Except.ok recs ∧ recs = [] ∧
          runScraper w site maxPaginas =
            { outcome := Except.ok recs,
              trace := (loopOf site maxPaginas).trace ++ [Event.quit, Event.noticeEmpty] }) ∨
       (∃ recs, (loopOf site maxPaginas).outcome = Except.ok recs ∧ recs ≠ [] ∧
          runScraper w site maxPaginas =
            { outcome := Except.ok recs,
              trace := (loopOf site maxPaginas).trace ++
                [Event.quit, Event.persistCsv (toCsvFile recs)] }))) := by
  cases w with
  | error e => exact Or.inl ⟨e, rfl, rfl⟩
  | ok u =>
    cases u
    refine Or.inr ⟨rfl, ?_⟩
    have key : runScraper (Except.ok ()) site maxPaginas =
        (match (loopOf site maxPaginas).outcome with
          | Except.error e =>
            ({ outcome := Except.error e,
               trace := (loopOf site maxPaginas).trace ++ [Event.quit] } : RunResult)
          | Except.ok recs =>
            if recs.isEmpty then
              { outcome := Except.ok recs,
                trace := (loopOf site maxPaginas).trace ++ [Event.quit, Event.noticeEmpty] }
            else
              { outcome := Except.ok recs,
                trace := (loopOf site maxPaginas).trace ++
                  [Event.quit, Event.persistCsv (toCsvFile recs)] }) := rfl
    cases ho : (loopOf site maxPaginas).outcome with
    | error e =>
      refine Or.inl ⟨e, rfl, ?_⟩
      rw [key, ho]
    | ok recs =>
      by_cases hre : recs = []
      · refine Or.inr (Or.inl ⟨recs, rfl, hre, ?_⟩)
        rw [key, ho]
        dsimp only
        rw [if_pos (List.isEmpty_iff.mpr hre)]
      · refine Or.inr (Or.inr ⟨recs, rfl, hre, ?_⟩)
        rw [key, ho]
        dsimp only
        rw [if_neg (fun hc => hre (List.isEmpty_iff.mp hc))]

theorem countQuit_loopOf (site : Nat → Except PyErr (List AnuncioDiv)) (maxPaginas : Nat) :
    countQuit (loopOf site maxPaginas).trace = 0 :=
  countQuit_loop site maxPaginas (maxPaginas + 1) 1 []

theorem persistedFiles_loopOf (site : Nat → Except PyErr (List AnuncioDiv)) (maxPaginas : Nat) :
    persistedFiles (loopOf site maxPaginas).trace = [] :=
  persistedFiles_loop site maxPaginas (maxPaginas + 1) 1 []

theorem countNoticeEmpty_loopOf (site : Nat → Except PyErr (List AnuncioDiv)) (maxPaginas : Nat) :
    countNoticeEmpty (loopOf site maxPaginas).trace = 0 :=
  countNoticeEmpty_loop site maxPaginas (maxPaginas + 1) 1 []

/-- The fetch sequence of a whole run: consecutive pages from 1, at most
`maxPaginas` of them. -/
theorem runScraper_fetchPages (w : Except PyErr Unit)
    (site : Nat → Except PyErr (List AnuncioDiv)) (maxPaginas : Nat) :
    ∃ n, fetchPages (runScraper w site maxPaginas).trace = pageSeq 1 n ∧ n ≤ maxPaginas := by
  rcases runScraper_eq_cases w site maxPaginas with
    ⟨e, hw, hrun⟩ | ⟨hw, ⟨e, ho, hrun⟩ | ⟨recs, ho, hre, hrun⟩ | ⟨recs, ho, hre, hrun⟩⟩ <;>
    rw [hrun] <;> dsimp only
  · exact ⟨0, rfl, Nat.zero_le _⟩
  all_goals
    obtain ⟨n, hn, hb⟩ := crawlLoop_fetchPages site maxPaginas (maxPaginas + 1) 1 []
    refine ⟨n, ?_, by omega⟩
    rw [fetchPages_append]
    rw [show fetchPages (loopOf site maxPaginas).trace = pageSeq 1 n from hn]
    simp [fetchPages]

/-- When every page up to the ceiling fetches a non-empty container list
whose extraction completes, the loop fetches every remaining page. -/
theorem crawlLoop_numFetches_full (site : Nat → Except PyErr (List AnuncioDiv))
    (maxPaginas : Nat)
    (hgood : ∀ p, 1 ≤ p → p ≤ maxPaginas →
      ∃ xs, site p = Except.ok xs ∧ xs ≠ [] ∧
        ∃ rs evs, processAnuncios xs = (Except.ok rs, evs)) :
    ∀ fuel pagina acc, maxPaginas + 1 ≤ pagina + fuel → 1 ≤ pagina →
      numFetches (crawlLoop site maxPaginas fuel pagina acc).trace =
        maxPaginas + 1 - pagina := by
  intro fuel
  induction fuel with
  | zero =>
    intro pagina acc hle h1
    simp [crawlLoop, numFetches, fetchPages]
    omega
  | succ fuel ih =>
    intro pagina acc hle h1
    rw [crawlLoop]
    by_cases hg : pagina ≤ maxPaginas
    · rw [if_pos hg]
      obtain ⟨xs, hs, hne, rs, evs, hp⟩ := hgood pagina h1 hg
      rw [hs]
      dsimp only
      rw [if_neg (fun hc => hne (List.isEmpty_iff.mp hc)), hp]
      dsimp only
      have hevs : fetchPages evs = [] :=
        fetchPages_of_warn (fun ev hm =>
          processAnuncios_events_warn xs ev (by rw [hp]; exact hm))
      have hrec := ih (pagina + 1) (acc ++ rs) (by omega) (by omega)
      show numFetches (Event.fetch pagina :: (evs ++ _)) = _
      rw [numFetches, fetchPages_cons_fetch, fetchPages_append, hevs, List.nil_append]
      rw [List.length_cons]
      rw [show (fetchPages (crawlLoop site maxPaginas fuel (pagina + 1) (acc ++ rs)).trace).length
        = numFetches (crawlLoop site maxPaginas fuel (pagina + 1) (acc ++ rs)).trace from rfl]
      omega
    · rw [if_neg hg]
      simp [numFetches, fetchPages]
      omega

theorem get_feature_eq_na {fs : List LiTag} {name : String}
    (h : ∀ li ∈ fs, li.title ≠ name) : get_feature fs name = "N/A" := by
  have hnone : fs.find? (fun li => li.title == name) = none :=
    List.find?_eq_none.mpr (fun li hm hc => h li hm (by simpa using hc))
  simp only [get_feature, hnone]

/-! ## Claims -/

/-- C1: the per-container failure policy promises that a single malformed
listing never aborts the page's extraction, and the script's own comment
says broken-structure listings are skipped; but a container whose required
link anchor is absent raises `TypeError` (`None['href']`), which the
`except AttributeError` handler does not catch: the page's extraction
aborts and the well-formed sibling contributes nothing, although the same
sibling alone extracts fine. -/
theorem c1_malformed_link_aborts_page :
    (processAnuncios [goodDiv]).1 = Except.ok [goodImovel] ∧
    extractAnuncioDiv noLinkDiv = Except.error PyErr.typeError ∧
    (processAnuncios [noLinkDiv, goodDiv]).1 = Except.error PyErr.typeError :=
  ⟨rfl, rfl, rfl⟩

/-- C2: a container whose required fields are present and whose features
sub-list lacks the entry for any of the non-required features (area,
bedrooms, suites, parking) still extracts to a record, with the missing
feature's field set to the sentinel "N/A". -/
theorem c2_optional_feature_yields_na (a : AnuncioDiv) (p q l : String) (fs : List LiTag)
    (hp : a.preco = some p) (he : a.endereco = some q) (hl : a.link = some l)
    (hf : a.features = some fs) :
    ∃ r, extractAnuncioDiv a = Except.ok r ∧
      ((∀ li ∈ fs, li.title ≠ "Área útil") → r.area_util_m2 = "N/A") ∧
      ((∀ li ∈ fs, li.title ≠ "Quartos") → r.quartos = "N/A") ∧
      ((∀ li ∈ fs, li.title ≠ "Suítes") → r.suites = "N/A") ∧
      ((∀ li ∈ fs, li.title ≠ "Vagas") → r.vagas = "N/A") := by
  rcases a with ⟨ap, ae, al, af⟩
  dsimp only at hp he hl hf
  subst hp; subst he; subst hl; subst hf
  refine ⟨_, rfl, ?_, ?_, ?_, ?_⟩ <;> intro hnone <;>
    exact get_feature_eq_na hnone

/-- C2 witness: a container whose features list omits all four entries
yields a record whose four feature fields are all "N/A". -/
theorem c2_witness :
    ∃ r, extractAnuncioDiv naDiv = Except.ok r ∧ r.area_util_m2 = "N/A" ∧
      r.quartos = "N/A" ∧ r.suites = "N/A" ∧ r.vagas = "N/A" := by
  obtain ⟨r, hr, h1, h2, h3, h4⟩ :=
    c2_optional_feature_yields_na naDiv "R$ 900" "Taguatinga" "https://other.example/x" []
      rfl rfl rfl rfl
  exact ⟨r, hr,
    h1 (fun li hm => absurd hm (List.not_mem_nil li)),
    h2 (fun li hm => absurd hm (List.not_mem_nil li)),
    h3 (fun li hm => absurd hm (List.not_mem_nil li)),
    h4 (fun li hm => absurd hm (List.not_mem_nil li))⟩

/-- C3: the crawl performs at most `MAX_PAGINAS` fetches; the fetched page
indices are consecutive starting at 1; no fetched index exceeds the
ceiling; and when every page up to the ceiling is non-empty (and its
extraction completes), exactly `MAX_PAGINAS` fetches occur. -/
theorem c3_page_ceiling :
    (∀ (w : Except PyErr Unit) (site : Nat → Except PyErr (List AnuncioDiv)),
       numFetches (runScraper w site MAX_PAGINAS).trace ≤ MAX_PAGINAS) ∧
    (∀ (w : Except PyErr Unit) (site : Nat → Except PyErr (List AnuncioDiv)),
       fetchPages (runScraper w site MAX_PAGINAS).trace =
         pageSeq 1 (numFetches (runScraper w site MAX_PAGINAS).trace)) ∧
    (∀ (w : Except PyErr Unit) (site : Nat → Except PyErr (List AnuncioDiv)) (p : Nat),
       p ∈ fetchPages (runScraper w site MAX_PAGINAS).trace → 1 ≤ p ∧ p ≤ MAX_PAGINAS) ∧
    (∀ site : Nat → Except PyErr (List AnuncioDiv),
       (∀ p, 1 ≤ p → p ≤ MAX_PAGINAS →
          ∃ xs, site p = Except.ok xs ∧ xs ≠ [] ∧
            ∃ rs evs, processAnuncios xs = (Except.ok rs, evs)) →
       numFetches (runScraper (Except.ok ()) site MAX_PAGINAS).trace = MAX_PAGINAS) := by
  refine ⟨?_, ?_, ?_, ?_⟩
  · intro w site
    obtain ⟨n, hn, hb⟩ := runScraper_fetchPages w site MAX_PAGINAS
    rw [numFetches, hn, pageSeq_length]
    exact hb
  · intro w site
    obtain ⟨n, hn, _⟩ := runScraper_fetchPages w site MAX_PAGINAS
    rw [numFetches, hn, pageSeq_length]
  · intro w site p hmem
    obtain ⟨n, hn, hb⟩ := runScraper_fetchPages w site MAX_PAGINAS
    rw [hn] at hmem
    have hpm := pageSeq_mem hmem
    omega
  · intro site hgood
    have hloop : numFetches (loopOf site MAX_PAGINAS).trace = MAX_PAGINAS := by
      rw [loopOf,
        crawlLoop_numFetches_full site MAX_PAGINAS hgood (MAX_PAGINAS + 1) 1 []
          (by omega) (by omega)]
      omega
    rcases runScraper_eq_cases (Except.ok ()) site MAX_PAGINAS with
      ⟨e, hw, hrun⟩ | ⟨_, ⟨e, ho, hrun⟩ | ⟨recs, ho, hre, hrun⟩ | ⟨recs, ho, hre, hrun⟩⟩
    · exact absurd hw (by simp)
    · rw [hrun]
      dsimp only
      rw [numFetches, fetchPages_append,
        show fetchPages [Event.quit] = [] from rfl, List.append_nil]
      exact hloop
    · rw [hrun]
      dsimp only
      rw [numFetches, fetchPages_append,
        show fetchPages [Event.quit, Event.noticeEmpty] = [] from rfl, List.append_nil]
      exact hloop
    · rw [hrun]
      dsimp only
      rw [numFetches, fetchPages_append,
        show fetchPages [Event.quit, Event.persistCsv (toCsvFile recs)] = [] from rfl,
        List.append_nil]
      exact hloop

/-- C3 witness: on a site where every page has one well-formed container,
exactly `MAX_PAGINAS` fetches occur. -/
theorem c3_witness :
    numFetches (runScraper (Except.ok ()) siteFull MAX_PAGINAS).trace = MAX_PAGINAS :=
  c3_page_ceiling.2.2.2 siteFull
    (fun p h1 h2 => ⟨[goodDiv], rfl, by simp, [goodImovel], [], rfl⟩)

/-- C4: a page with zero listing containers makes the extraction loop
yield nothing (`processAnuncios [] = ([], no events)`) and stops the crawl
right there: the accumulated records are returned unchanged and no further
page is fetched.  Concretely (scenario A): page 1 with 20 well-formed
containers and an empty page 2 give 20 records and exactly 2 fetches. -/
theorem c4_empty_page_stops :
    processAnuncios [] = (Except.ok [], []) ∧
    (∀ (site : Nat → Except PyErr (List AnuncioDiv)) (fuel pagina : Nat) (acc : List Imovel),
       pagina ≤ MAX_PAGINAS → site pagina = Except.ok [] →
       crawlLoop site MAX_PAGINAS (fuel + 1) pagina acc =
         { outcome := Except.ok acc, trace := [Event.fetch pagina] }) ∧
    (runScraper (Except.ok ()) siteA MAX_PAGINAS).outcome =
      Except.ok (List.replicate 20 goodImovel) ∧
    numFetches (runScraper (Except.ok ()) siteA MAX_PAGINAS).trace = 2 := by
  refine ⟨rfl, ?_, rfl, rfl⟩
  intro site fuel pagina acc hg hs
  rw [crawlLoop, if_pos hg, hs]
  rfl

/-- C4 witness: an empty page at index 1 stops the loop at once, keeping
the accumulated records and fetching exactly that one page. -/
theorem c4_witness :
    crawlLoop (fun _ => Except.ok []) MAX_PAGINAS (MAX_PAGINAS + 1) 1 [goodImovel] =
      { outcome := Except.ok [goodImovel], trace := [Event.fetch 1] } :=
  c4_empty_page_stops.2.1 (fun _ => Except.ok []) MAX_PAGINAS 1 [goodImovel]
    (by decide) rfl

/-- C5: on every run — warm-up failure, crawl-loop error, empty result or
normal completion — `driver.quit()` (the `finally` block) executes exactly
once. -/
theorem c5_quit_exactly_once (w : Except PyErr Unit)
    (site : Nat → Except PyErr (List AnuncioDiv)) (maxPaginas : Nat) :
    countQuit (runScraper w site maxPaginas).trace = 1 := by
  rcases runScraper_eq_cases w site maxPaginas with
    ⟨e, hw, hrun⟩ | ⟨_, ⟨e, ho, hrun⟩ | ⟨recs, ho, hre, hrun⟩ | ⟨recs, ho, hre, hrun⟩⟩ <;>
    rw [hrun]
  · rfl
  · dsimp only
    rw [countQuit_append, countQuit_loopOf]
    rfl
  · dsimp only
    rw [countQuit_append, countQuit_loopOf]
    rfl
  · dsimp only
    rw [countQuit_append, countQuit_loopOf]
    rfl

/-- C6: after normal termination of the crawl loop, persistence runs
exactly once: a non-empty record sequence is written as a single CSV at
the fixed path, header `preco_anuncio, endereco, area_util_m2, quartos,
suites, vagas, url`, one data row per record, no index column,
`utf-8-sig` encoding, overwriting any existing file, and no
nothing-collected notice is shown; an empty sequence writes no file and
shows the nothing-collected notice exactly once. -/
theorem c6_persist_exactly_once (w : Except PyErr Unit)
    (site : Nat → Except PyErr (List AnuncioDiv)) (maxPaginas : Nat)
    (recs : List Imovel)
    (hout : (runScraper w site maxPaginas).outcome = Except.ok recs) :
    (recs ≠ [] →
       persistedFiles (runScraper w site maxPaginas).trace = [toCsvFile recs] ∧
       (toCsvFile recs).path = NOME_ARQUIVO_BRUTO ∧
       (toCsvFile recs).rows = csvHeader :: recs.map imovelRow ∧
       csvHeader =
         ["preco_anuncio", "endereco", "area_util_m2", "quartos", "suites", "vagas", "url"] ∧
       (recs.map imovelRow).length = recs.length ∧
       (toCsvFile recs).withIndex = false ∧
       (toCsvFile recs).encoding = "utf-8-sig" ∧
       (toCsvFile recs).overwrite = true ∧
       countNoticeEmpty (runScraper w site maxPaginas).trace = 0) ∧
    (recs = [] →
       persistedFiles (runScraper w site maxPaginas).trace = [] ∧
       countNoticeEmpty (runScraper w site maxPaginas).trace = 1) := by
  rcases runScraper_eq_cases w site maxPaginas with
    ⟨e, hw, hrun⟩ | ⟨_, ⟨e, ho, hrun⟩ | ⟨recs', ho, hre, hrun⟩ | ⟨recs', ho, hre, hrun⟩⟩
  · rw [hrun] at hout
    exact absurd hout (by simp)
  · rw [hrun] at hout
    exact absurd hout (by simp)
  · rw [hrun] at hout
    dsimp only at hout
    have hrr : recs = recs' := by
      have := hout
      simp only [Except.ok.injEq] at this
      exact this.symm
    subst hrr
    refine ⟨fun hne => absurd hre hne, fun _ => ?_⟩
    rw [hrun]
    dsimp only
    constructor
    · rw [persistedFiles_append, persistedFiles_loopOf]
      rfl
    · rw [countNoticeEmpty_append, countNoticeEmpty_loopOf]
      rfl
  · rw [hrun] at hout
    dsimp only at hout
    have hrr : recs = recs' := by
      have := hout
      simp only [Except.ok.injEq] at this
      exact this.symm
    subst hrr
    refine ⟨fun _ => ?_, fun hz => absurd hz hre⟩
    rw [hrun]
    dsimp only
    refine ⟨?_, rfl, rfl, rfl, recs.length_map imovelRow, rfl, rfl, rfl, ?_⟩
    · rw [persistedFiles_append, persistedFiles_loopOf]
      rfl
    · rw [countNoticeEmpty_append, countNoticeEmpty_loopOf]
      rfl

/-- C6 witness: the scenario-A run persists its 20 records as one CSV and
shows no nothing-collected notice. -/
theorem c6_witness :
    persistedFiles (runScraper (Except.ok ()) siteA MAX_PAGINAS).trace =
      [toCsvFile (List.replicate 20 goodImovel)] ∧
    countNoticeEmpty (runScraper (Except.ok ()) siteA MAX_PAGINAS).trace = 0 := by
  obtain ⟨h, _, _, _, _, _, _, _, hn⟩ :=
    (c6_persist_exactly_once (Except.ok ()) siteA MAX_PAGINAS
      (List.replicate 20 goodImovel) rfl).1 (by simp)
  exact ⟨h, hn⟩

/-- C7: URL normalization: a root-relative extracted link is prefixed with
the home origin stripped of its trailing slash, any other link passes
through unchanged; scenario D instantiates this at origin
`https://example.com/`. -/
theorem c7_url_normalization :
    (∀ link : String, pyStartsWith link "/" = true →
       url_completa HOME_PAGE link = "https://www.dfimoveis.com.br" ++ link) ∧
    (∀ link : String, pyStartsWith link "/" = false →
       url_completa HOME_PAGE link = link) ∧
    url_completa "https://example.com/" "/anuncio/123" = "https://example.com/anuncio/123" := by
  refine ⟨?_, ?_, rfl⟩
  · intro link h
    rw [url_completa, if_pos h,
      show pyStripChar HOME_PAGE '/' = "https://www.dfimoveis.com.br" from rfl]
  · intro link h
    rw [url_completa, if_neg (by rw [h]; exact Bool.false_ne_true)]

/-- C7 witness: a root-relative and an absolute link, both against the
script's home page. -/
theorem c7_witness :
    url_completa HOME_PAGE "/anuncio/123" = "https://www.dfimoveis.com.br" ++ "/anuncio/123" ∧
    url_completa HOME_PAGE "https://x.example/y" = "https://x.example/y" :=
  ⟨c7_url_normalization.1 "/anuncio/123" rfl,
   c7_url_normalization.2.1 "https://x.example/y" rfl⟩

/-- C8: a run whose outcome is an error (a fetch/navigation failure or an
uncaught extraction error) never reaches the persistence step: no CSV is
written, even when records had been accumulated from earlier pages. -/
theorem c8_no_persist_on_error (w : Except PyErr Unit)
    (site : Nat → Except PyErr (List AnuncioDiv)) (maxPaginas : Nat) (e : PyErr)
    (hout : (runScraper w site maxPaginas).outcome = Except.error e) :
    persistedFiles (runScraper w site maxPaginas).trace = [] := by
  rcases runScraper_eq_cases w site maxPaginas with
    ⟨e', hw, hrun⟩ | ⟨_, ⟨e', ho, hrun⟩ | ⟨recs, ho, hre, hrun⟩ | ⟨recs, ho, hre, hrun⟩⟩
  · rw [hrun]
    rfl
  · rw [hrun]
    dsimp only
    rw [persistedFiles_append, persistedFiles_loopOf]
    rfl
  · rw [hrun] at hout
    exact absurd hout (by simp)
  · rw [hrun] at hout
    exact absurd hout (by simp)

/-- C8 witness: page 1 collects a record, page 2 fails with a navigation
error — the run aborts and nothing is persisted. -/
theorem c8_witness :
    (runScraper (Except.ok ()) siteErr MAX_PAGINAS).outcome =
      Except.error PyErr.webDriverError ∧
    persistedFiles (runScraper (Except.ok ()) siteErr MAX_PAGINAS).trace = [] :=
  ⟨rfl, c8_no_persist_on_error (Except.ok ()) siteErr MAX_PAGINAS PyErr.webDriverError rfl⟩

/-- C9: a container with price and address elements but no `<a href>`
anchor makes the link lookup evaluate `None['href']`, raising `TypeError`;
the per-container handler catches only `AttributeError`, so the error
propagates out of the extraction loop (later siblings contribute nothing)
and aborts the entire crawl without persisting. -/
theorem c9_missing_href_aborts_crawl (a : AnuncioDiv) (p q : String)
    (hp : a.preco = some p) (he : a.endereco = some q) (hl : a.link = none) :
    extractAnuncioDiv a = Except.error PyErr.typeError ∧
    (∀ pre post : List AnuncioDiv,
       (∀ b ∈ pre, extractAnuncioDiv b = Except.error PyErr.attributeError ∨
          ∃ r, extractAnuncioDiv b = Except.ok r) →
       (processAnuncios (pre ++ a :: post)).1 = Except.error PyErr.typeError) ∧
    (∀ (site : Nat → Except PyErr (List AnuncioDiv)) (maxPaginas : Nat)
       (pre post : List AnuncioDiv),
       1 ≤ maxPaginas →
       site 1 = Except.ok (pre ++ a :: post) →
       (∀ b ∈ pre, extractAnuncioDiv b = Except.error PyErr.attributeError ∨
          ∃ r, extractAnuncioDiv b = Except.ok r) →
       (runScraper (Except.ok ()) site maxPaginas).outcome =
         Except.error PyErr.typeError ∧
       persistedFiles (runScraper (Except.ok ()) site maxPaginas).trace = []) := by
  have hx : extractAnuncioDiv a = Except.error PyErr.typeError := by
    rcases a with ⟨ap, ae, al, af⟩
    dsimp only at hp he hl
    subst hp; subst he; subst hl
    rfl
  have habort : ∀ pre post : List AnuncioDiv,
      (∀ b ∈ pre, extractAnuncioDiv b = Except.error PyErr.attributeError ∨
         ∃ r, extractAnuncioDiv b = Except.ok r) →
      (processAnuncios (pre ++ a :: post)).1 = Except.error PyErr.typeError := by
    intro pre post hpre
    induction pre with
    | nil =>
      show (processAnuncios (a :: post)).1 = _
      simp only [processAnuncios, hx]
    | cons b pre ih =>
      have hrest := ih (fun c hc => hpre c (List.mem_cons_of_mem b hc))
      have hb := hpre b (List.mem_cons_self b pre)
      rcases hq : processAnuncios (pre ++ a :: post) with ⟨res, evs⟩
      rw [hq] at hrest
      dsimp only at hrest
      subst hrest
      show (processAnuncios (b :: (pre ++ a :: post))).1 = _
      rcases hb with hb | ⟨r, hb⟩
      · simp only [processAnuncios, hb, hq]
      · simp only [processAnuncios, hb, hq]
  refine ⟨hx, habort, ?_⟩
  intro site maxPaginas pre post h1m hsite hpre
  have hproc := habort pre post hpre
  rcases hq : processAnuncios (pre ++ a :: post) with ⟨res, evs⟩
  rw [hq] at hproc
  dsimp only at hproc
  subst hproc
  have hloop : loopOf site maxPaginas =
      { outcome := Except.error PyErr.typeError, trace := Event.fetch 1 :: evs } := by
    rw [loopOf, crawlLoop, if_pos h1m, hsite]
    dsimp only
    rw [if_neg (fun hc => (by simp : (pre ++ a :: post) ≠ [])
        (List.isEmpty_iff.mp hc)), hq]
  rcases runScraper_eq_cases (Except.ok ()) site maxPaginas with
    ⟨e, hw, hrun⟩ | ⟨_, ⟨e, ho, hrun⟩ | ⟨recs, ho, hre, hrun⟩ | ⟨recs, ho, hre, hrun⟩⟩
  · exact absurd hw (by simp)
  · rw [hloop] at ho
    dsimp only at ho
    have he' : e = PyErr.typeError := by
      simp only [Except.error.injEq] at ho
      exact ho.symm
    subst he'
    rw [hrun]
    refine ⟨rfl, ?_⟩
    dsimp only
    rw [persistedFiles_append, persistedFiles_loopOf]
    rfl
  · rw [hloop] at ho
    exact absurd ho (by simp)
  · rw [hloop] at ho
    exact absurd ho (by simp)

/-- C9 witness: a link-less container followed by a well-formed sibling on
page 1 aborts the whole crawl with `TypeError` and persists nothing. -/
theorem c9_witness :
    (runScraper (Except.ok ()) siteNoLink MAX_PAGINAS).outcome =
      Except.error PyErr.typeError ∧
    persistedFiles (runScraper (Except.ok ()) siteNoLink MAX_PAGINAS).trace = [] :=
  (c9_missing_href_aborts_crawl noLinkDiv "R$ 1.000" "Asa Sul" rfl rfl rfl).2.2
    siteNoLink MAX_PAGINAS [] [goodDiv] (by decide) rfl
    (fun b hb => absurd hb (List.not_mem_nil b))

/-- C10: a container whose features `<ul>` is entirely absent raises
`AttributeError` inside `get_feature` (`None.find`) even when price,
address and link are all present: the container yields no record at all —
it is skipped with a warning — rather than a record with all four feature
fields set to "N/A". -/
theorem c10_missing_features_ul_skips (a : AnuncioDiv) (p q l : String)
    (hp : a.preco = some p) (he : a.endereco = some q) (hl : a.link = some l)
    (hf : a.features = none) :
    extractAnuncioDiv a = Except.error PyErr.attributeError ∧
    (∀ r, extractAnuncioDiv a ≠ Except.ok r) ∧
    (∀ rest, processAnuncios (a :: rest) =
       ((processAnuncios rest).1, Event.warnSkip :: (processAnuncios rest).2)) := by
  have hx : extractAnuncioDiv a = Except.error PyErr.attributeError := by
    rcases a with ⟨ap, ae, al, af⟩
    dsimp only at hp he hl hf
    subst hp; subst he; subst hl; subst hf
    rfl
  refine ⟨hx, fun r hr => absurd (hx ▸ hr) (by simp), ?_⟩
  intro rest
  rcases hq : processAnuncios rest with ⟨res, evs⟩
  show processAnuncios (a :: rest) = _
  simp only [processAnuncios, hx, hq]

/-- C10 witness: a features-less container is skipped with one warning
while its well-formed sibling still contributes its record. -/
theorem c10_witness :
    extractAnuncioDiv noFeaturesDiv = Except.error PyErr.attributeError ∧
    processAnuncios [noFeaturesDiv, goodDiv] =
      (Except.ok [goodImovel], [Event.warnSkip]) := by
  obtain ⟨h1, _, h3⟩ :=
    c10_missing_features_ul_skips noFeaturesDiv "R$ 3.000" "Lago Sul" "/imovel/2"
      rfl rfl rfl rfl
  refine ⟨h1, ?_⟩
  rw [h3 [goodDiv]]
  rfl

end DfImoveis
